import Mathlib

/-!
# Counting-bot: shallow embedding and verification

Shallow embedding of the core of the `counting-bot` repository:

* `src/bot/cogs/counting.py` — the `Counting` cog: number extraction,
  message evaluation, and the grace-period (recovery window) subsystem.
* `src/bot/db/database.py` — the SQLite-backed store, modelled per room
  (one guild): the `guild_settings` row and the `user_stats` table.

Conventions of the embedding:

* Machine integers are `Nat` (the Python implementation uses unbounded
  `int`, and all quantities involved are non-negative).
* The SQLite `CURRENT_TIMESTAMP` column `last_count_time` is modelled by a
  strictly increasing logical clock (`DbState.clock`); well-formedness
  (`DbWF`) says every stored timestamp is older than the clock.
* Fallible store calls (`increment_count`) take an explicit `storeOk : Bool`
  environment flag standing for "the SQL transaction did not raise"; on
  `false` the Python code reaches the `except` branch, changes nothing and
  returns `False`.
* `asyncio` state is embedded as explicit state: the cog's
  `grace_periods` dict entry for one guild becomes `Option GracePeriod`,
  and the countdown task handle becomes the `countdown_done` flag
  (`task.done()`).  The countdown's expiry firing is the explicit
  transition `gracePeriodCountdownExpire`.
-/

namespace CountingBot

/-! ## Number extractor (`Counting._extract_first_number`) -/

/-- The Discord formatting characters stripped from the start of a message,
from `re.sub(r'^[*_~`]+', '', text.strip())` in `_extract_first_number`. -/
def isFormattingChar (c : Char) : Bool :=
  c = '*' || c = '_' || c = '~' || c = '`'

/-- Numeric value of an ASCII digit character. -/
def digitVal (c : Char) : Nat := c.toNat - '0'.toNat

/-- Python's `str.strip()`: drop whitespace from both ends. -/
def pyStrip (cs : List Char) : List Char :=
  ((cs.dropWhile Char.isWhitespace).reverse.dropWhile Char.isWhitespace).reverse

/-- `int(...)` applied to a string of decimal digits (most significant
first), as a left fold — Python integers are unbounded. -/
def parseDigits (ds : List Char) : Nat :=
  ds.foldl (fun a c => a * 10 + digitVal c) 0

/-- `Counting._extract_first_number` (counting.py, lines 107–130):
trim the text, strip the leading run of formatting characters, and if the
remainder starts with a run of decimal digits, parse that run with `int`;
otherwise return `None`.  The regex `\d` is modelled as ASCII `0`–`9`. -/
def extract_first_number (text : String) : Option Nat :=
  match ((pyStrip text.toList).dropWhile isFormattingChar).takeWhile Char.isDigit with
  | [] => none
  | c :: cs => some (parseDigits (c :: cs))

/-- Spec-side restatement, for the refinement claim about the extractor:
strip the leading run of emphasis characters from the trimmed input
(structural recursion, spelled from the spec's words). -/
def stripEmphasis : List Char → List Char
  | [] => []
  | c :: rest =>
    if c = '*' ∨ c = '_' ∨ c = '~' ∨ c = '`' then stripEmphasis rest
    else c :: rest

/-- Spec-side restatement: the leading contiguous run of decimal digits. -/
def leadingDigits : List Char → List Char
  | [] => []
  | c :: rest => if c.isDigit then c :: leadingDigits rest else []

/-- Spec-side restatement of `extract_leading_integer` (§4.1 of the spec):
trim; strip the leading emphasis run; require the remainder to start with a
contiguous run of decimal digits and return the integer it denotes
(via `Nat.ofDigits`, little-endian), otherwise absent. -/
def extract_leading_integer_spec (text : String) : Option Nat :=
  match leadingDigits (stripEmphasis (pyStrip text.toList)) with
  | [] => none
  | c :: cs => some (Nat.ofDigits 10 (((c :: cs).map digitVal).reverse))

/-! ## Room count store (`Database`, database.py), one room -/

/-- One `guild_settings` row (database.py, `_create_tables`): the counting
channel, the live count, and the two statistics, with SQL `DEFAULT 0`. -/
structure GuildRow where
  counting_channel_id : Option Nat
  current_count : Nat
  high_score : Nat
  total_score : Nat
  deriving Repr, DecidableEq

/-- One `user_stats` row for this guild: per-user counters and the
`last_count_time` timestamp (logical clock value). -/
structure UserStat where
  user_id : Nat
  counts : Nat
  score : Nat
  last_count_time : Nat
  deriving Repr, DecidableEq

/-- The store's state for one room: the optional `guild_settings` row
(absent until the guild is initialised), the guild's `user_stats` rows, and
the logical clock standing for `CURRENT_TIMESTAMP`. -/
structure DbState where
  row : Option GuildRow
  user_stats : List UserStat
  clock : Nat
  deriving Repr, DecidableEq

/-- Well-formedness of the store state: every stored timestamp predates the
clock (wall time moves forward between operations). -/
def DbWF (s : DbState) : Prop :=
  ∀ u ∈ s.user_stats, u.last_count_time < s.clock

instance (s : DbState) : Decidable (DbWF s) := by
  unfold DbWF; infer_instance

/-- `Database.get_current_count` (lines 135–147): the row's
`current_count`, defaulting to 0 when the guild is unknown. -/
def get_current_count (s : DbState) : Nat :=
  match s.row with
  | some r => r.current_count
  | none => 0

/-- The row selected by `ORDER BY last_count_time DESC LIMIT 1`: a row of
maximal timestamp (later rows win ties, matching the insertion of the
freshest row at the end). -/
def latestStat (l : List UserStat) : Option UserStat :=
  l.foldl
    (fun acc u =>
      match acc with
      | none => some u
      | some v => if v.last_count_time < u.last_count_time then some u else some v)
    none

/-- `Database.get_last_counter` (lines 186–200):
`SELECT user_id FROM user_stats WHERE guild_id = ? ORDER BY last_count_time
DESC LIMIT 1` — the user id carried by a row of maximal timestamp. -/
def get_last_counter (s : DbState) : Option Nat :=
  (latestStat s.user_stats).map UserStat.user_id

/-- The `INSERT OR REPLACE INTO user_stats` statement inside
`increment_count`: replace (or create) this user's row, with
`counts`/`score` at old value + 1 (or 1), and `last_count_time` the
current timestamp. -/
def upsert_user_stat (stats : List UserStat) (uid t : Nat) : List UserStat :=
  let old := stats.find? (fun u => u.user_id == uid)
  let counts := match old with | some u => u.counts + 1 | none => 1
  let score := match old with | some u => u.score + 1 | none => 1
  stats.filter (fun u => u.user_id != uid) ++ [⟨uid, counts, score, t⟩]

/-- `Database.increment_count` (lines 149–184): on success, read the current
count, `UPDATE guild_settings` (count := current + 1, `high_score` raised by
`CASE WHEN`, `total_score + 1` — the `UPDATE` touches nothing when the row is
absent), upsert the user's stats row, and return `True`.  `storeOk = false`
models the `except` branch: no committed change, return `False`. -/
def increment_count (s : DbState) (uid : Nat) (storeOk : Bool) : DbState × Bool :=
  if storeOk then
    let newCount := get_current_count s + 1
    let row' := s.row.map (fun r =>
      { r with
        current_count := newCount
        high_score := if r.high_score < newCount then newCount else r.high_score
        total_score := r.total_score + 1 })
    ({ row := row'
       user_stats := upsert_user_stat s.user_stats uid s.clock
       clock := s.clock + 1 }, true)
  else
    (s, false)

/-- `Database.reset_count` (lines 202–226): `UPDATE guild_settings SET
current_count = 0` (no effect when the row is absent) and `DELETE FROM
user_stats` for the guild. -/
def reset_count (s : DbState) : DbState :=
  { row := s.row.map (fun r => { r with current_count := 0 })
    user_stats := []
    clock := s.clock }

/-- `Database.set_counting_channel` (lines 107–119): `INSERT OR REPLACE
INTO guild_settings (guild_id, counting_channel_id, updated_at)` — SQLite's
`OR REPLACE` deletes any existing row for the guild and inserts a fresh one,
so every column not in the column list falls back to its `DEFAULT 0`:
`current_count`, `high_score` and `total_score` are all reset to 0. -/
def set_counting_channel (s : DbState) (channel_id : Nat) : DbState :=
  { s with row := some ⟨some channel_id, 0, 0, 0⟩ }

/-! ## Counting cog (`Counting`, counting.py), one room -/

/-- One live entry of `Counting.grace_periods` (counting.py, line 23):
`(expected_number, embed_message, countdown_task, mistake_user_id)`.  The
embed message handle belongs to the external notification collaborator and
carries no engine state; the task handle is modelled by its observable
`task.done()` flag. -/
structure GracePeriod where
  expected_number : Nat
  mistake_user_id : Nat
  countdown_done : Bool
  deriving Repr, DecidableEq

/-- The engine state for one room: the store's state plus the room's entry
in the `grace_periods` dict (`none` when no window is live — a dict holds at
most one value per key, so `Option` is exact). -/
structure RoomState where
  db : DbState
  grace : Option GracePeriod
  deriving Repr, DecidableEq

/-- Outcome of processing one message, reifying the code's observable
effects (reactions, embed edits, log lines). -/
inductive Outcome where
  /-- Silently ignored: an early `return` with no state change. -/
  | ignored
  /-- Valid count accepted (success reaction). -/
  | accepted
  /-- Valid count, but the store increment failed (error reaction). -/
  | acceptFailed
  /-- Wrong number: a grace period was opened. -/
  | recovering
  /-- Grace period: count saved (celebration embed, window closed). -/
  | graceSaved
  /-- Grace period: correct number but the store increment failed
  (error reaction, window kept). -/
  | graceSaveFailed
  deriving Repr, DecidableEq

/-- `message.content.startswith((':', '<', '@'))` — the sigil check applied
before extraction (counting.py, lines 58 and 228). -/
def startsWithSigil (text : String) : Bool :=
  match text.toList with
  | [] => false
  | c :: _ => c = ':' || c = '<' || c = '@'

/-- `Counting._end_grace_period` (lines 272–317): when a window is present,
cancel its countdown task, reset the room's count in the store when
`resetCount` is set, and delete the window from the dict; when no window is
present, return immediately. -/
def end_grace_period (s : RoomState) (resetCount : Bool) : RoomState :=
  match s.grace with
  | none => s
  | some _ =>
    { db := if resetCount then reset_count s.db else s.db
      grace := none }

/-- `Counting._start_grace_period` (lines 132–158): force-expire any window
already live for the room (`_end_grace_period(reset_count=True)`), then
send the countdown embed, start the countdown task, and record the new
window in the dict. -/
def start_grace_period (s : RoomState) (expected mistakeUid : Nat) : RoomState :=
  let s1 := if s.grace.isSome then end_grace_period s true else s
  { s1 with grace := some ⟨expected, mistakeUid, false⟩ }

/-- The expiry transition of `Counting._grace_period_countdown`
(lines 160–206): when the countdown runs to zero, the task checks that the
room is still in `grace_periods` and, if so, calls
`_end_grace_period(reset_count=True)`; if the window is already gone the
task returns without effect. -/
def grace_period_countdown_expire (s : RoomState) : RoomState :=
  if s.grace.isSome then end_grace_period s true else s

/-- `Counting._handle_grace_period_message` (lines 208–270): the correction
path taken by every message while a window is live.  Early returns (no
window, countdown already done, the mistake's author, sigil-prefixed, no
number, wrong number) change nothing.  On a match, attempt the store
increment: on success cancel the countdown, edit the embed, delete the
window; on failure react with the error emote and keep the window. -/
def handle_grace_period_message (s : RoomState) (uid : Nat) (text : String)
    (storeOk : Bool) : RoomState × Outcome :=
  match s.grace with
  | none => (s, .ignored)
  | some gp =>
    if gp.countdown_done then (s, .ignored)
    else if uid = gp.mistake_user_id then (s, .ignored)
    else if startsWithSigil text then (s, .ignored)
    else
      match extract_first_number text with
      | none => (s, .ignored)
      | some n =>
        if n = gp.expected_number then
          if (increment_count s.db uid storeOk).2 then
            ({ db := (increment_count s.db uid storeOk).1, grace := none }, .graceSaved)
          else ({ s with db := (increment_count s.db uid storeOk).1 }, .graceSaveFailed)
        else (s, .ignored)

/-- `Counting._process_counting_message` (lines 46–100): route to the
grace-period handler when a window is live; otherwise ignore sigil-prefixed
and number-free messages, ignore a repeat contributor (checked before
correctness), open a grace period on a wrong number, and increment the
store on the right one. -/
def process_counting_message (s : RoomState) (uid : Nat) (text : String)
    (storeOk : Bool) : RoomState × Outcome :=
  if s.grace.isSome then handle_grace_period_message s uid text storeOk
  else if startsWithSigil text then (s, .ignored)
  else
    match extract_first_number text with
    | none => (s, .ignored)
    | some n =>
      let current := get_current_count s.db
      let lastCounter := get_last_counter s.db
      if lastCounter = some uid then (s, .ignored)
      else
        let expected := current + 1
        if n ≠ expected then (start_grace_period s expected uid, .recovering)
        else
          if (increment_count s.db uid storeOk).2 then
            ({ s with db := (increment_count s.db uid storeOk).1 }, .accepted)
          else ({ s with db := (increment_count s.db uid storeOk).1 }, .acceptFailed)

/-! ## Supporting lemmas: the extractor -/

theorem stripEmphasis_eq_dropWhile (cs : List Char) :
    stripEmphasis cs = cs.dropWhile isFormattingChar := by
  induction cs with
  | nil => rfl
  | cons c rest ih =>
    simp only [stripEmphasis, List.dropWhile, isFormattingChar]
    by_cases h : c = '*' ∨ c = '_' ∨ c = '~' ∨ c = '`'
    · rw [if_pos h, ih]
      rcases h with h | h | h | h <;> simp [h]
    · rw [if_neg h]
      push_neg at h
      obtain ⟨h1, h2, h3, h4⟩ := h
      simp [h1, h2, h3, h4]

theorem leadingDigits_eq_takeWhile (cs : List Char) :
    leadingDigits cs = cs.takeWhile Char.isDigit := by
  induction cs with
  | nil => rfl
  | cons c rest ih =>
    simp only [leadingDigits, List.takeWhile]
    by_cases h : c.isDigit
    · simp [h, ih]
    · simp [h]

theorem parseDigits_eq_ofDigits (ds : List Char) :
    parseDigits ds = Nat.ofDigits 10 ((ds.map digitVal).reverse) := by
  induction ds using List.reverseRecOn with
  | nil => rfl
  | append_singleton ds c ih =>
    have hfold : parseDigits (ds ++ [c]) = parseDigits ds * 10 + digitVal c := by
      simp [parseDigits, List.foldl_append]
    rw [hfold, ih]
    simp [Nat.ofDigits_cons]
    ring

/-! ## Theorems for the claims about the extractor -/

/-- **C8.** `_extract_first_number` refines the spec's
`extract_leading_integer`: trim, strip the leading run of emphasis
characters, and return the value of the leading contiguous digit run of the
remainder if one exists, otherwise absent; moreover `"**42**" ↦ 42`,
`"fourty two" ↦` absent, `"<:emote:12345> 3" ↦` absent, and
`"3 <:emote:12345>" ↦ 3`. -/
theorem C8_extractor_refines_spec :
    (∀ text : String, extract_first_number text = extract_leading_integer_spec text)
    ∧ extract_first_number "**42**" = some 42
    ∧ extract_first_number "fourty two" = none
    ∧ extract_first_number "<:emote:12345> 3" = none
    ∧ extract_first_number "3 <:emote:12345>" = some 3 := by
  refine ⟨?_, rfl, rfl, rfl, rfl⟩
  intro text
  simp only [extract_first_number, extract_leading_integer_spec,
    stripEmphasis_eq_dropWhile, leadingDigits_eq_takeWhile]
  cases h : ((pyStrip text.toList).dropWhile isFormattingChar).takeWhile Char.isDigit with
  | nil => rfl
  | cons c cs => simp [parseDigits_eq_ofDigits]

/-- **C9, counterexample.** The extractor returns a 20-digit value — far
beyond the 64-bit range — instead of absent: no overflow check exists
(Python `int` is unbounded, so the `ValueError` fallback never fires for a
digit run). -/
theorem C9_counterexample_no_overflow :
    extract_first_number "99999999999999999999" = some 99999999999999999999
    ∧ 2 ^ 64 < 99999999999999999999 := ⟨rfl, by norm_num⟩

theorem dropWhile_eq_self_of_forall {α : Type} (p : α → Bool) (l : List α)
    (h : ∀ x ∈ l, p x = false) : l.dropWhile p = l := by
  cases l with
  | nil => rfl
  | cons c rest => simp [List.dropWhile_cons, h c (List.mem_cons_self c rest)]

theorem takeWhile_eq_self_of_forall {α : Type} (p : α → Bool) (l : List α)
    (h : ∀ x ∈ l, p x = true) : l.takeWhile p = l := by
  induction l with
  | nil => rfl
  | cons c rest ih =>
    simp [List.takeWhile_cons, h c (by simp), ih (fun x hx => h x (by simp [hx]))]

theorem digit_not_whitespace (c : Char) (h : c.isDigit = true) :
    c.isWhitespace = false := by
  cases hw : c.isWhitespace
  · rfl
  · exfalso
    have : c = ' ' ∨ c = '\t' ∨ c = '\r' ∨ c = '\n' := by
      simpa [Char.isWhitespace, decide_eq_true_eq, or_assoc] using hw
    rcases this with rfl | rfl | rfl | rfl <;> exact absurd h (by decide)

theorem digit_not_formatting (c : Char) (h : c.isDigit = true) :
    isFormattingChar c = false := by
  cases hf : isFormattingChar c
  · rfl
  · exfalso
    have : c = '*' ∨ c = '_' ∨ c = '~' ∨ c = '`' := by
      simpa [isFormattingChar, decide_eq_true_eq, or_assoc] using hf
    rcases this with rfl | rfl | rfl | rfl <;> exact absurd h (by decide)

/-- **C9, amended.** No magnitude bound applies: every non-empty all-digit
input parses to the integer it denotes, however large, so the extractor
never returns absent on account of overflow. -/
theorem C9_digit_runs_always_parse (ds : List Char) (hne : ds ≠ [])
    (hdigits : ∀ c ∈ ds, c.isDigit = true) :
    extract_first_number (String.mk ds) = some (parseDigits ds) := by
  have hws : ∀ x ∈ ds, x.isWhitespace = false :=
    fun x hx => digit_not_whitespace x (hdigits x hx)
  have hfmt : ∀ x ∈ ds, isFormattingChar x = false :=
    fun x hx => digit_not_formatting x (hdigits x hx)
  have h1 : pyStrip ds = ds := by
    unfold pyStrip
    rw [dropWhile_eq_self_of_forall _ _ hws,
      dropWhile_eq_self_of_forall _ _ (fun x hx => hws x (List.mem_reverse.mp hx)),
      List.reverse_reverse]
  have htoList : (String.mk ds).toList = ds := rfl
  unfold extract_first_number
  rw [htoList, h1, dropWhile_eq_self_of_forall _ _ hfmt,
    takeWhile_eq_self_of_forall _ _ hdigits]
  cases ds with
  | nil => exact absurd rfl hne
  | cons c rest => rfl

/-- Closed instance of `C9_digit_runs_always_parse` at a concrete digit
list. -/
theorem C9_digit_runs_always_parse_witness :
    extract_first_number (String.mk ['1', '2', '3']) = some (parseDigits ['1', '2', '3']) :=
  C9_digit_runs_always_parse ['1', '2', '3'] (by decide) (by decide)

/-! ## Supporting lemmas: the store -/

theorem latestStat_aux_mem (l : List UserStat) :
    ∀ (acc v : Option UserStat),
      l.foldl
        (fun acc u =>
          match acc with
          | none => some u
          | some v => if v.last_count_time < u.last_count_time then some u else some v)
        acc = v → v = acc ∨ ∃ u ∈ l, v = some u := by
  induction l with
  | nil => intro acc v h; exact Or.inl h.symm
  | cons u rest ih =>
    intro acc v h
    rcases ih _ v h with hacc | ⟨w, hw, rfl⟩
    · cases acc with
      | none =>
        simp only at hacc
        exact Or.inr ⟨u, List.mem_cons_self u rest, hacc⟩
      | some a =>
        simp only at hacc
        by_cases hlt : a.last_count_time < u.last_count_time
        · rw [if_pos hlt] at hacc
          exact Or.inr ⟨u, List.mem_cons_self u rest, hacc⟩
        · rw [if_neg hlt] at hacc
          exact Or.inl hacc
    · exact Or.inr ⟨w, List.mem_cons_of_mem u hw, rfl⟩

theorem latestStat_mem (l : List UserStat) (v : UserStat)
    (h : latestStat l = some v) : v ∈ l := by
  rcases latestStat_aux_mem l none (some v) h with hacc | ⟨w, hw, hv⟩
  · exact absurd hacc (by simp)
  · obtain rfl : v = w := by injection hv
    exact hw

/-- Appending a strictly fresher row makes it the one selected by
`ORDER BY last_count_time DESC LIMIT 1`. -/
theorem latestStat_append_fresh (l : List UserStat) (u : UserStat)
    (h : ∀ v ∈ l, v.last_count_time < u.last_count_time) :
    latestStat (l ++ [u]) = some u := by
  unfold latestStat
  rw [List.foldl_append]
  cases hl : latestStat l with
  | none =>
    unfold latestStat at hl
    rw [hl]
    rfl
  | some v =>
    unfold latestStat at hl
    rw [hl]
    simp only [List.foldl]
    rw [if_pos (h v (latestStat_mem l v hl))]

/-! ## Theorems for the claims about the store -/

/-- **C5, counterexample.** On a room the store has never seen
(no `guild_settings` row), `increment_count` reports success yet the
`UPDATE` matches no row: `get_current_count` stays 0 instead of advancing
to 1. -/
theorem C5_counterexample_uninitialized_room :
    (increment_count ⟨none, [], 0⟩ 7 true).2 = true
    ∧ get_current_count ⟨none, [], 0⟩ = 0
    ∧ get_current_count (increment_count ⟨none, [], 0⟩ 7 true).1 = 0 := by
  refine ⟨rfl, rfl, rfl⟩

/-- **C5, amended.** For every room whose `guild_settings` row exists
(initialised room) and whose stored timestamps predate the clock, a
successful `increment_count` advances `get_current_count` by exactly 1 and
makes `get_last_counter` return the incrementing contributor. -/
theorem C5_increment_advances (s : DbState) (uid : Nat) (b : Bool) (r : GuildRow)
    (hrow : s.row = some r) (hwf : DbWF s)
    (hok : (increment_count s uid b).2 = true) :
    get_current_count (increment_count s uid b).1 = get_current_count s + 1
    ∧ get_last_counter (increment_count s uid b).1 = some uid := by
  cases b with
  | false => exact absurd hok (by simp [increment_count])
  | true =>
    constructor
    · simp [increment_count, get_current_count, hrow]
    · simp only [increment_count, if_pos]
      unfold get_last_counter
      simp only
      unfold upsert_user_stat
      rw [latestStat_append_fresh]
      · rfl
      · intro v hv
        exact hwf v (List.mem_of_mem_filter hv)

/-- Closed instance of `C5_increment_advances` on a concrete initialised
room. -/
theorem C5_increment_advances_witness :
    get_current_count (increment_count ⟨some ⟨some 1, 4, 4, 9⟩, [⟨3, 2, 2, 0⟩], 1⟩ 7 true).1
      = get_current_count ⟨some ⟨some 1, 4, 4, 9⟩, [⟨3, 2, 2, 0⟩], 1⟩ + 1
    ∧ get_last_counter (increment_count ⟨some ⟨some 1, 4, 4, 9⟩, [⟨3, 2, 2, 0⟩], 1⟩ 7 true).1
      = some 7 :=
  C5_increment_advances ⟨some ⟨some 1, 4, 4, 9⟩, [⟨3, 2, 2, 0⟩], 1⟩ 7 true
    ⟨some 1, 4, 4, 9⟩ rfl (by decide) (by decide)

/-- **C6.** Failing-input evaluation: `set_counting_channel` is implemented
with `INSERT OR REPLACE`, which replaces the whole `guild_settings` row, so
on a room with `high_score = 2` and `total_score = 5` it drops both
statistics to their column defaults of 0 — the statistics are not
monotonic under counting-channel configuration. -/
theorem C6_set_channel_drops_stats :
    (set_counting_channel ⟨some ⟨none, 2, 2, 5⟩, [], 3⟩ 99).row = some ⟨some 99, 0, 0, 0⟩
    ∧ (0 : Nat) < 2 ∧ (0 : Nat) < 5 := by
  refine ⟨rfl, by norm_num, by norm_num⟩

/-! ## Supporting lemmas: the cog -/

theorem increment_count_false (s : DbState) (uid : Nat) :
    increment_count s uid false = (s, false) := rfl

theorem increment_count_true_snd (s : DbState) (uid : Nat) :
    (increment_count s uid true).2 = true := rfl

theorem get_current_count_reset (s : DbState) :
    get_current_count (reset_count s) = 0 := by
  unfold reset_count get_current_count
  cases s.row <;> rfl

theorem get_last_counter_reset (s : DbState) :
    get_last_counter (reset_count s) = none := rfl

theorem get_current_count_increment_le (s : DbState) (uid : Nat) (b : Bool) :
    get_current_count s ≤ get_current_count (increment_count s uid b).1 := by
  cases b with
  | false => exact Nat.le_refl _
  | true =>
    unfold increment_count get_current_count
    cases s.row with
    | none => simp
    | some r => simp

/-- The expiry transition on a room with a live window: the count is reset
and the window removed. -/
theorem expire_of_live_window (s : RoomState) (h : s.grace.isSome = true) :
    grace_period_countdown_expire s = { db := reset_count s.db, grace := none } := by
  obtain ⟨gp, hg⟩ := Option.isSome_iff_exists.mp h
  unfold grace_period_countdown_expire end_grace_period
  rw [if_pos h, hg]
  rfl

/-- The expiry transition on a room with no live window is a no-op: the
countdown task finds the room absent from `grace_periods` and returns. -/
theorem expire_of_no_window (s : RoomState) (h : s.grace = none) :
    grace_period_countdown_expire s = s := by
  unfold grace_period_countdown_expire
  rw [h]
  rfl

/-- Exhaustive outcome analysis of the correction handler on a live window:
either nothing happens (a silent rejection), or the increment failed and
only the failure reaction is emitted, or the count is saved, the window
removed, and the store incremented. -/
theorem handle_grace_cases (s : RoomState) (gp : GracePeriod) (uid : Nat)
    (text : String) (ok : Bool) (hg : s.grace = some gp) :
    handle_grace_period_message s uid text ok = (s, .ignored)
    ∨ handle_grace_period_message s uid text ok = (s, .graceSaveFailed)
    ∨ (handle_grace_period_message s uid text ok
        = ({ db := (increment_count s.db uid ok).1, grace := none }, .graceSaved)
      ∧ ok = true) := by
  unfold handle_grace_period_message
  rw [hg]
  by_cases h1 : gp.countdown_done
  · left; simp [h1]
  · by_cases h2 : uid = gp.mistake_user_id
    · left; simp [h1, h2]
    · by_cases h3 : startsWithSigil text
      · left; simp [h1, h2, h3]
      · cases hn : extract_first_number text with
        | none => left; simp [h1, h2, h3]
        | some n =>
          by_cases h4 : n = gp.expected_number
          · cases ok with
            | false =>
              right; left
              simp [h1, h2, h3, h4, increment_count_false]
              rw [← hg]
            | true =>
              right; right
              refine ⟨?_, rfl⟩
              simp [h1, h2, h3, h4, increment_count_true_snd]
          · left; simp [h1, h2, h3, h4]

/-! ## Theorems for the claims about the cog -/

/-- **C1.** When the grace countdown reaches zero while the window is still
live, the room's count is reset to 0, the last-contributor record is
cleared (`get_last_counter` returns `none`), and the window is removed from
the live set. -/
theorem C1_expiry_resets_room (s : RoomState) (h : s.grace.isSome = true) :
    get_current_count (grace_period_countdown_expire s).db = 0
    ∧ get_last_counter (grace_period_countdown_expire s).db = none
    ∧ (grace_period_countdown_expire s).grace = none := by
  rw [expire_of_live_window s h]
  exact ⟨get_current_count_reset s.db, get_last_counter_reset s.db, rfl⟩

/-- Closed instance of `C1_expiry_resets_room` on a concrete room with a
live window. -/
theorem C1_expiry_resets_room_witness :
    get_current_count (grace_period_countdown_expire
      ⟨⟨some ⟨some 1, 3, 3, 3⟩, [⟨7, 1, 1, 0⟩], 1⟩, some ⟨4, 7, false⟩⟩).db = 0
    ∧ get_last_counter (grace_period_countdown_expire
      ⟨⟨some ⟨some 1, 3, 3, 3⟩, [⟨7, 1, 1, 0⟩], 1⟩, some ⟨4, 7, false⟩⟩).db = none
    ∧ (grace_period_countdown_expire
      ⟨⟨some ⟨some 1, 3, 3, 3⟩, [⟨7, 1, 1, 0⟩], 1⟩, some ⟨4, 7, false⟩⟩).grace = none :=
  C1_expiry_resets_room ⟨⟨some ⟨some 1, 3, 3, 3⟩, [⟨7, 1, 1, 0⟩], 1⟩, some ⟨4, 7, false⟩⟩ rfl

theorem get_current_count_increment (s : DbState) (uid : Nat)
    (h : s.row.isSome = true) :
    get_current_count (increment_count s uid true).1 = get_current_count s + 1 := by
  obtain ⟨r, hr⟩ := Option.isSome_iff_exists.mp h
  simp [increment_count, get_current_count, hr]

/-- **C2.** A valid correction — non-excluded contributor, no sigil prefix,
the extracted number equal to the window's expected value — arriving while
the countdown is still running, with the store increment succeeding,
resolves the window: the count becomes the expected value, the window
leaves the live set, and the expiry transition is afterwards a no-op (no
reset ever happens on account of this window).  The hypotheses
`s.db.row.isSome` and `hexp` are the invariants of every reachable live
window: the room has a configured settings row, and the expected value was
recorded as current count + 1 when the window opened
(`recovering_window_is_coherent`). -/
theorem C2_correction_saves (s : RoomState) (gp : GracePeriod) (uid : Nat)
    (text : String)
    (hg : s.grace = some gp) (hdone : gp.countdown_done = false)
    (huid : uid ≠ gp.mistake_user_id) (hsig : startsWithSigil text = false)
    (hnum : extract_first_number text = some gp.expected_number)
    (hrow : s.db.row.isSome = true)
    (hexp : gp.expected_number = get_current_count s.db + 1) :
    (handle_grace_period_message s uid text true).2 = Outcome.graceSaved
    ∧ get_current_count (handle_grace_period_message s uid text true).1.db
        = gp.expected_number
    ∧ (handle_grace_period_message s uid text true).1.grace = none
    ∧ grace_period_countdown_expire (handle_grace_period_message s uid text true).1
        = (handle_grace_period_message s uid text true).1 := by
  have hsave : handle_grace_period_message s uid text true
      = ({ db := (increment_count s.db uid true).1, grace := none }, .graceSaved) := by
    unfold handle_grace_period_message
    rw [hg]
    simp [hdone, huid, hsig, hnum, increment_count_true_snd]
  rw [hsave]
  refine ⟨rfl, ?_, rfl, ?_⟩
  · rw [get_current_count_increment s.db uid hrow, hexp]
  · exact expire_of_no_window _ rfl

/-- Closed instance of `C2_correction_saves` on a concrete live window:
count 3, expected 4, mistake by user 7, correction "4" by user 8. -/
theorem C2_correction_saves_witness :
    (handle_grace_period_message
        ⟨⟨some ⟨some 1, 3, 3, 3⟩, [⟨7, 1, 1, 0⟩], 1⟩, some ⟨4, 7, false⟩⟩ 8 "4" true).2
      = Outcome.graceSaved
    ∧ get_current_count (handle_grace_period_message
        ⟨⟨some ⟨some 1, 3, 3, 3⟩, [⟨7, 1, 1, 0⟩], 1⟩, some ⟨4, 7, false⟩⟩ 8 "4" true).1.db
      = (4 : Nat)
    ∧ (handle_grace_period_message
        ⟨⟨some ⟨some 1, 3, 3, 3⟩, [⟨7, 1, 1, 0⟩], 1⟩, some ⟨4, 7, false⟩⟩ 8 "4" true).1.grace
      = none
    ∧ grace_period_countdown_expire (handle_grace_period_message
        ⟨⟨some ⟨some 1, 3, 3, 3⟩, [⟨7, 1, 1, 0⟩], 1⟩, some ⟨4, 7, false⟩⟩ 8 "4" true).1
      = (handle_grace_period_message
        ⟨⟨some ⟨some 1, 3, 3, 3⟩, [⟨7, 1, 1, 0⟩], 1⟩, some ⟨4, 7, false⟩⟩ 8 "4" true).1 :=
  C2_correction_saves
    ⟨⟨some ⟨some 1, 3, 3, 3⟩, [⟨7, 1, 1, 0⟩], 1⟩, some ⟨4, 7, false⟩⟩ ⟨4, 7, false⟩
    8 "4" rfl rfl (by decide) rfl rfl rfl rfl

/-- **C3.** Outside any grace period, a non-sigil message with an extracted
number whose author is the room's last recorded contributor is ignored with
no state change — correct number or not, no increment happens and no
window opens; the repeat-contributor check precedes correctness checking. -/
theorem C3_repeat_contributor_ignored (s : RoomState) (uid : Nat)
    (text : String) (ok : Bool) (n : Nat)
    (hg : s.grace = none) (hsig : startsWithSigil text = false)
    (hnum : extract_first_number text = some n)
    (hlast : get_last_counter s.db = some uid) :
    process_counting_message s uid text ok = (s, .ignored) := by
  unfold process_counting_message
  simp [hg, hsig, hnum, hlast]

/-- Closed instance of `C3_repeat_contributor_ignored`: user 7 counted
last (count is at 1) and posts the correct next number "2"; it is still
ignored. -/
theorem C3_repeat_contributor_ignored_witness :
    process_counting_message ⟨⟨some ⟨some 1, 1, 1, 1⟩, [⟨7, 1, 1, 0⟩], 1⟩, none⟩ 7 "2" true
      = (⟨⟨some ⟨some 1, 1, 1, 1⟩, [⟨7, 1, 1, 0⟩], 1⟩, none⟩, .ignored) :=
  C3_repeat_contributor_ignored ⟨⟨some ⟨some 1, 1, 1, 1⟩, [⟨7, 1, 1, 0⟩], 1⟩, none⟩
    7 "2" true 2 rfl rfl rfl rfl

/-- **C4.** The correction handler changes nothing — same state, no
success signal — whenever any rejection condition holds: no window open,
countdown already completed, author is the excluded contributor,
sigil-prefixed message, or extracted number differing from the expected
value (including no number at all).  In particular the excluded contributor
is rejected even with the numerically correct value. -/
theorem C4_rejected_corrections_change_nothing (s : RoomState) (uid : Nat)
    (text : String) (ok : Bool)
    (h : s.grace = none
      ∨ ∃ gp, s.grace = some gp
          ∧ (gp.countdown_done = true ∨ uid = gp.mistake_user_id
            ∨ startsWithSigil text = true
            ∨ extract_first_number text ≠ some gp.expected_number)) :
    handle_grace_period_message s uid text ok = (s, .ignored) := by
  unfold handle_grace_period_message
  rcases h with hg | ⟨gp, hg, hcond⟩
  · rw [hg]
  · rw [hg]
    by_cases h1 : gp.countdown_done
    · simp [h1]
    · by_cases h2 : uid = gp.mistake_user_id
      · simp [h1, h2]
      · by_cases h3 : startsWithSigil text
        · simp [h1, h2, h3]
        · rcases hcond with hc | hc | hc | hc
          · exact absurd hc h1
          · exact absurd hc h2
          · exact absurd hc h3
          · cases hn : extract_first_number text with
            | none => simp [h1, h2, h3]
            | some n =>
              have hne : n ≠ gp.expected_number := by
                intro he
                exact hc (by rw [hn, he])
              simp [h1, h2, h3, hne]

/-- Closed instance of `C4_rejected_corrections_change_nothing`: the
excluded contributor (user 7) posts the numerically correct "4" during the
window and is rejected with no state change. -/
theorem C4_rejected_corrections_witness :
    handle_grace_period_message
        ⟨⟨some ⟨some 1, 3, 3, 3⟩, [⟨7, 1, 1, 0⟩], 1⟩, some ⟨4, 7, false⟩⟩ 7 "4" true
      = (⟨⟨some ⟨some 1, 3, 3, 3⟩, [⟨7, 1, 1, 0⟩], 1⟩, some ⟨4, 7, false⟩⟩, .ignored) :=
  C4_rejected_corrections_change_nothing
    ⟨⟨some ⟨some 1, 3, 3, 3⟩, [⟨7, 1, 1, 0⟩], 1⟩, some ⟨4, 7, false⟩⟩ 7 "4" true
    (Or.inr ⟨⟨4, 7, false⟩, rfl, Or.inr (Or.inl rfl)⟩)

/-- **C7.** A correction matching the expected value whose store increment
fails surfaces the failure outcome and does not resolve the window: the
state is unchanged, the window is still live with its countdown running,
and the deadline can still expire it — the expiry transition still removes
the window and resets the count to 0. -/
theorem C7_store_failure_keeps_window (s : RoomState) (gp : GracePeriod)
    (uid : Nat) (text : String)
    (hg : s.grace = some gp) (hdone : gp.countdown_done = false)
    (huid : uid ≠ gp.mistake_user_id) (hsig : startsWithSigil text = false)
    (hnum : extract_first_number text = some gp.expected_number) :
    handle_grace_period_message s uid text false = (s, .graceSaveFailed)
    ∧ (handle_grace_period_message s uid text false).1.grace = some gp
    ∧ (grace_period_countdown_expire (handle_grace_period_message s uid text false).1).grace
        = none
    ∧ get_current_count
        (grace_period_countdown_expire (handle_grace_period_message s uid text false).1).db
        = 0 := by
  have hfail : handle_grace_period_message s uid text false = (s, .graceSaveFailed) := by
    unfold handle_grace_period_message
    rw [hg]
    simp [hdone, huid, hsig, hnum, increment_count_false]
    rw [← hg]
  rw [hfail]
  have hlive : s.grace.isSome = true := by rw [hg]; rfl
  rw [expire_of_live_window s hlive]
  exact ⟨rfl, hg, rfl, get_current_count_reset s.db⟩

/-- Closed instance of `C7_store_failure_keeps_window`: the store rejects
the correction "4" by user 8; the window for expected 4 stays live. -/
theorem C7_store_failure_keeps_window_witness :
    handle_grace_period_message
        ⟨⟨some ⟨some 1, 3, 3, 3⟩, [⟨7, 1, 1, 0⟩], 1⟩, some ⟨4, 7, false⟩⟩ 8 "4" false
      = (⟨⟨some ⟨some 1, 3, 3, 3⟩, [⟨7, 1, 1, 0⟩], 1⟩, some ⟨4, 7, false⟩⟩, .graceSaveFailed)
    ∧ (handle_grace_period_message
        ⟨⟨some ⟨some 1, 3, 3, 3⟩, [⟨7, 1, 1, 0⟩], 1⟩, some ⟨4, 7, false⟩⟩ 8 "4" false).1.grace
      = some ⟨4, 7, false⟩
    ∧ (grace_period_countdown_expire (handle_grace_period_message
        ⟨⟨some ⟨some 1, 3, 3, 3⟩, [⟨7, 1, 1, 0⟩], 1⟩, some ⟨4, 7, false⟩⟩ 8 "4" false).1).grace
      = none
    ∧ get_current_count (grace_period_countdown_expire (handle_grace_period_message
        ⟨⟨some ⟨some 1, 3, 3, 3⟩, [⟨7, 1, 1, 0⟩], 1⟩, some ⟨4, 7, false⟩⟩ 8 "4" false).1).db
      = 0 :=
  C7_store_failure_keeps_window
    ⟨⟨some ⟨some 1, 3, 3, 3⟩, [⟨7, 1, 1, 0⟩], 1⟩, some ⟨4, 7, false⟩⟩ ⟨4, 7, false⟩
    8 "4" rfl rfl (by decide) rfl rfl

/-- **C10.** While a window is live: every message is routed to the
correction handler, never to normal evaluation; the count can change only
through a successful correction (any count change forces the `graceSaved`
outcome); no message opens a new or superseding window (any window still
live afterwards is the original); and the count never resets (it never
decreases) during the window.  At most one window per room holds
structurally: the room's entry in the `grace_periods` dict is a single
`Option`. -/
theorem C10_live_window_routing (s : RoomState) (gp : GracePeriod) (uid : Nat)
    (text : String) (ok : Bool) (hg : s.grace = some gp) :
    process_counting_message s uid text ok = handle_grace_period_message s uid text ok
    ∧ (get_current_count (handle_grace_period_message s uid text ok).1.db
        ≠ get_current_count s.db
        → (handle_grace_period_message s uid text ok).2 = Outcome.graceSaved)
    ∧ (∀ gp', (handle_grace_period_message s uid text ok).1.grace = some gp' → gp' = gp)
    ∧ get_current_count s.db
        ≤ get_current_count (handle_grace_period_message s uid text ok).1.db := by
  have hroute : process_counting_message s uid text ok
      = handle_grace_period_message s uid text ok := by
    unfold process_counting_message
    rw [hg]
    rfl
  refine ⟨hroute, ?_⟩
  rcases handle_grace_cases s gp uid text ok hg with hc | hc | ⟨hc, hok⟩
  · rw [hc]
    exact ⟨fun hne => absurd rfl hne, fun gp' h => (Option.some.inj (hg ▸ h)).symm,
      Nat.le_refl _⟩
  · rw [hc]
    exact ⟨fun hne => absurd rfl hne, fun gp' h => (Option.some.inj (hg ▸ h)).symm,
      Nat.le_refl _⟩
  · rw [hc]
    refine ⟨fun _ => rfl, fun gp' h => by exact absurd h (by simp), ?_⟩
    exact get_current_count_increment_le s.db uid ok

/-- Closed instance of `C10_live_window_routing`: a second wrong number
("9" by user 8) arriving during a live window is routed to the correction
handler and ignored — no reset, no superseding window. -/
theorem C10_live_window_routing_witness :
    (process_counting_message
        ⟨⟨some ⟨some 1, 3, 3, 3⟩, [⟨7, 1, 1, 0⟩], 1⟩, some ⟨4, 7, false⟩⟩ 8 "9" true
      = handle_grace_period_message
        ⟨⟨some ⟨some 1, 3, 3, 3⟩, [⟨7, 1, 1, 0⟩], 1⟩, some ⟨4, 7, false⟩⟩ 8 "9" true)
    ∧ (get_current_count (handle_grace_period_message
        ⟨⟨some ⟨some 1, 3, 3, 3⟩, [⟨7, 1, 1, 0⟩], 1⟩, some ⟨4, 7, false⟩⟩ 8 "9" true).1.db
        ≠ get_current_count (⟨⟨some ⟨some 1, 3, 3, 3⟩, [⟨7, 1, 1, 0⟩], 1⟩,
            some ⟨4, 7, false⟩⟩ : RoomState).db
        → (handle_grace_period_message
        ⟨⟨some ⟨some 1, 3, 3, 3⟩, [⟨7, 1, 1, 0⟩], 1⟩, some ⟨4, 7, false⟩⟩ 8 "9" true).2
          = Outcome.graceSaved)
    ∧ (∀ gp', (handle_grace_period_message
        ⟨⟨some ⟨some 1, 3, 3, 3⟩, [⟨7, 1, 1, 0⟩], 1⟩, some ⟨4, 7, false⟩⟩ 8 "9" true).1.grace
          = some gp' → gp' = ⟨4, 7, false⟩)
    ∧ get_current_count (⟨⟨some ⟨some 1, 3, 3, 3⟩, [⟨7, 1, 1, 0⟩], 1⟩,
          some ⟨4, 7, false⟩⟩ : RoomState).db
        ≤ get_current_count (handle_grace_period_message
        ⟨⟨some ⟨some 1, 3, 3, 3⟩, [⟨7, 1, 1, 0⟩], 1⟩, some ⟨4, 7, false⟩⟩ 8 "9" true).1.db :=
  C10_live_window_routing
    ⟨⟨some ⟨some 1, 3, 3, 3⟩, [⟨7, 1, 1, 0⟩], 1⟩, some ⟨4, 7, false⟩⟩ ⟨4, 7, false⟩
    8 "9" true rfl

/-- Reachability support for the coherence hypotheses of
`C2_correction_saves`: whenever normal evaluation opens a window (outcome
`recovering`), the store is untouched and the recorded window carries
`expected_number = current count + 1`, the message's author as the
excluded contributor, and a running countdown. -/
theorem recovering_window_is_coherent (s : RoomState) (uid : Nat)
    (text : String) (ok : Bool)
    (hg : s.grace = none)
    (hrec : (process_counting_message s uid text ok).2 = Outcome.recovering) :
    (process_counting_message s uid text ok).1.db = s.db
    ∧ (process_counting_message s uid text ok).1.grace
        = some ⟨get_current_count s.db + 1, uid, false⟩ := by
  unfold process_counting_message at hrec ⊢
  rw [hg] at hrec ⊢
  by_cases hsig : startsWithSigil text
  · simp [hsig] at hrec
  · cases hn : extract_first_number text with
    | none => simp [hsig, hn] at hrec
    | some n =>
      by_cases hlast : get_last_counter s.db = some uid
      · simp [hsig, hn, hlast] at hrec
      · by_cases hne : n ≠ get_current_count s.db + 1
        · constructor
          · simp [hsig, hn, hlast, hne, start_grace_period, end_grace_period, hg]
          · simp [hsig, hn, hlast, hne, start_grace_period, end_grace_period, hg]
        · cases hb : (increment_count s.db uid ok).2
          · simp [hsig, hn, hlast, hne, hb] at hrec
          · simp [hsig, hn, hlast, hne, hb] at hrec

end CountingBot
